import Mathlib

/-!
Verification of the tock-react-kit renderer-registry resolution and of the
Card / UrlButton presentation components, shallowly embedded from the
TypeScript source.

Conventions of the embedding:
* a JavaScript value that may be `undefined` is an `Option`;
* JavaScript string truthiness (`undefined`, `null` and `""` are falsy,
  every other string truthy) is the predicate `strTruthy`;
* React components held in the renderer registries are modelled by
  identities (`RendererId`); their two observable fields (`name`, the
  function name, and `displayName`) live in a mutable store
  `Store : RendererId → Renderer`, so that the in-place `displayName`
  assignment performed by `getRenderer` becomes explicit state passing.
-/

/-- JavaScript truthiness of an optional string: `undefined` and `""` are
falsy, every non-empty string is truthy. -/
def strTruthy : Option String → Bool
  | none => false
  | some s => !s.isEmpty

/-- The observable debug fields of a React component held in a registry:
`name` is the underlying function's name (absent for exotic components,
possibly empty), `displayName` is the debug label that `getRenderer`
may assign. -/
structure Renderer where
  name : Option String
  displayName : Option String
deriving Repr, DecidableEq

/-- Identity of a renderer component: registries hold references, and the
`displayName` mutation is visible through every alias of the same identity. -/
abbrev RendererId := Nat

/-- The mutable heap of renderer components. -/
abbrev Store := RendererId → Renderer

/-- A renderer registry (`TextRenderers` or `ImageRenderers`): a mapping
from slot names to an optional renderer reference. In the TypeScript
source the key set is a fixed enumerated set and the `default` slot is
declared mandatory; neither is enforced at runtime, so the model keeps
the full mapping. -/
abbrev Registry := String → Option RendererId

/-- The label synthesized by `getRenderer`:
`type ++ "(" ++ (renderer.name?.length ? renderer.name : name) ++ ")"`. -/
def mkLabel (type : String) (name : String) (r : Renderer) : String :=
  type ++ "(" ++ (if strTruthy r.name then r.name.getD name else name) ++ ")"

/-- Embedding of `getRenderer` (RendererSettings.tsx, lines 91-102):
looks the slot up in the registry; if a renderer is bound there and its
`displayName` is falsy, assigns it the synthesized label in place;
returns the bound renderer (or absence) together with the updated store. -/
def getRenderer (type : String) (renderers : Registry) (store : Store)
    (name : String) : Option RendererId × Store :=
  match renderers name with
  | none => (none, store)
  | some rid =>
      let r := store rid
      if strTruthy r.displayName then (some rid, store)
      else (some rid,
        fun i => if i = rid then
          { r with displayName := some (mkLabel type name r) } else store i)

/-- Embedding of `getRendererOrDefault` (RendererSettings.tsx, lines
81-89): `getRenderer(type, renderers, name) ?? getRenderer(type,
renderers, 'default')`. The nullish-coalescing fallback runs the second
lookup only when the first yields absence, in which case the first lookup
left the store untouched. -/
def getRendererOrDefault (type : String) (renderers : Registry)
    (store : Store) (name : String) : Option RendererId × Store :=
  match getRenderer type renderers store name with
  | (some rid, s1) => (some rid, s1)
  | (none, s1) => getRenderer type renderers s1 "default"

/-- The synthesized label is never the empty string (it always contains at
least the two parentheses), hence it is truthy. -/
theorem mkLabel_truthy (type name : String) (r : Renderer) :
    strTruthy (some (mkLabel type name r)) = true := by
  simp only [strTruthy, Bool.not_eq_true']
  rw [Bool.eq_false_iff]
  intro h
  have h2 := (String.isEmpty_iff _).1 h
  have h3 : (mkLabel type name r).length =
      type.length + 1 + (if strTruthy r.name then r.name.getD name else name).length + 1 := by
    simp only [mkLabel, String.length_append]
    rfl
  rw [h2] at h3
  simp at h3

/-- A first lookup of a slot makes the renderer bound there (if any) carry a
truthy `displayName` in the resulting store. -/
theorem getRenderer_truthy_after (type : String) (renderers : Registry)
    (store : Store) (name : String) (rid : RendererId)
    (h : (getRenderer type renderers store name).1 = some rid) :
    strTruthy (((getRenderer type renderers store name).2 rid).displayName) = true := by
  unfold getRenderer at *
  cases hreg : renderers name with
  | none => simp [hreg] at h
  | some rid0 =>
      simp only [hreg] at h ⊢
      by_cases hd : strTruthy (store rid0).displayName
      · simp only [hd, if_pos] at h ⊢
        simp at h
        subst h
        simpa using hd
      · simp only [Bool.not_eq_true] at hd
        simp only [hd, Bool.false_eq_true, if_false] at h ⊢
        simp at h
        subst h
        simp [mkLabel_truthy]

/-- Looking up a slot never changes which renderer reference it is bound to:
the first component of `getRenderer` is exactly the registry binding. -/
theorem getRenderer_fst (type : String) (reg : Registry) (store : Store)
    (name : String) : (getRenderer type reg store name).1 = reg name := by
  unfold getRenderer
  cases h : reg name with
  | none => simp
  | some rid => by_cases hd : strTruthy (store rid).displayName <;> simp [hd]

/-- Looking up an unbound slot leaves the store untouched. -/
theorem getRenderer_unbound (type : String) (reg : Registry) (store : Store)
    (name : String) (h : reg name = none) :
    getRenderer type reg store name = (none, store) := by
  unfold getRenderer
  simp [h]

/-- A second lookup of the same slot returns the same renderer and leaves
the store produced by the first lookup unchanged. -/
theorem getRenderer_idem (type : String) (reg : Registry) (store : Store)
    (name : String) :
    getRenderer type reg (getRenderer type reg store name).2 name =
      getRenderer type reg store name := by
  by_cases h : ∃ rid, reg name = some rid
  · obtain ⟨rid, hrid⟩ := h
    have hfst := getRenderer_fst type reg store name
    rw [hrid] at hfst
    have htr := getRenderer_truthy_after type reg store name rid hfst
    have key : ∀ p : Option RendererId × Store, p.1 = some rid →
        strTruthy ((p.2 rid).displayName) = true →
        getRenderer type reg p.2 name = p := by
      rintro ⟨r1, s2⟩ h1 h2
      simp only at h1 h2
      subst h1
      unfold getRenderer
      rw [hrid]
      simp [h2]
    exact key _ hfst htr
  · push_neg at h
    have hn : reg name = none := Option.eq_none_iff_forall_not_mem.2 (by
      intro a ha; exact h a ha)
    rw [getRenderer_unbound type reg store name hn]
    exact getRenderer_unbound type reg store name hn

/-- C1: for every registry and slot name, renderer resolution via
`getRendererOrDefault` returns exactly the renderer bound to that slot
when the slot is bound, and otherwise returns exactly the renderer bound
to the `default` slot. -/
theorem C1_resolution_slot_or_default (type : String) (reg : Registry)
    (store : Store) (slot : String) :
    (∀ rid, reg slot = some rid →
      (getRendererOrDefault type reg store slot).1 = some rid) ∧
    (reg slot = none →
      (getRendererOrDefault type reg store slot).1 = reg "default") := by
  constructor
  · intro rid hrid
    unfold getRendererOrDefault
    have hfst := getRenderer_fst type reg store slot
    rw [hrid] at hfst
    have key : ∀ p : Option RendererId × Store, p.1 = some rid →
        (match p with
          | (some rid2, s1) => (some rid2, s1)
          | (none, s1) => getRenderer type reg s1 "default").1 = some rid := by
      rintro ⟨r1, s1⟩ h1
      simp only at h1
      subst h1
      rfl
    exact key _ hfst
  · intro hnone
    unfold getRendererOrDefault
    rw [getRenderer_unbound type reg store slot hnone]
    exact getRenderer_fst type reg store "default"

/-- The store mapping every renderer identity to a component with neither a
function name nor a display name; concrete instance used by witnesses. -/
def plainStore : Store := fun _ => ⟨none, none⟩

/-- Concrete image registry binding `default` to renderer 0 and `card` to
renderer 1, all other slots absent. -/
def exampleRegistry : Registry := fun s =>
  if s = "default" then some 0 else if s = "card" then some 1 else none

/-- C1 witness: in the registry binding default to renderer 0 and card to
renderer 1, resolving card yields renderer 1 and resolving standalone
(absent) yields renderer 0, the default. -/
theorem C1_resolution_slot_or_default_witness :
    (getRendererOrDefault "ImageRenderer" exampleRegistry plainStore "card").1
        = some 1 ∧
    (getRendererOrDefault "ImageRenderer" exampleRegistry plainStore
        "standalone").1 = some 0 := by
  constructor
  · exact (C1_resolution_slot_or_default "ImageRenderer" exampleRegistry
      plainStore "card").1 1 (by decide)
  · have h := (C1_resolution_slot_or_default "ImageRenderer" exampleRegistry
      plainStore "standalone").2 (by decide)
    rw [h]
    decide

/-- C3: resolving the same named slot twice against the same registry is
idempotent: the second resolution returns the same renderer identity and
leaves the store (hence every assigned debug label) exactly as the first
resolution left it. -/
theorem C3_resolution_idempotent (type : String) (reg : Registry)
    (store : Store) (slot : String) :
    getRendererOrDefault type reg
        (getRendererOrDefault type reg store slot).2 slot =
      getRendererOrDefault type reg store slot := by
  by_cases h : ∃ rid, reg slot = some rid
  · obtain ⟨rid, hrid⟩ := h
    have hfst := getRenderer_fst type reg store slot
    rw [hrid] at hfst
    have hidem := getRenderer_idem type reg store slot
    unfold getRendererOrDefault
    cases hp : getRenderer type reg store slot with
    | mk r1 s1 =>
      rw [hp] at hfst hidem
      simp only at hfst hidem
      subst hfst
      simp only
      rw [hidem]
  · push_neg at h
    have hn : reg slot = none := Option.eq_none_iff_forall_not_mem.2 (by
      intro a ha; exact h a ha)
    have step : ∀ s : Store, getRendererOrDefault type reg s slot =
        getRenderer type reg s "default" := by
      intro s
      unfold getRendererOrDefault
      rw [getRenderer_unbound type reg s slot hn]
    rw [step, step, getRenderer_idem]

/-- C4: renderer resolution is total and signals no error; when even the
`default` slot is unbound (a violated configuration precondition) and the
requested slot is absent, it yields absence and leaves the store
untouched rather than failing. -/
theorem C4_missing_default_yields_absence (type : String) (reg : Registry)
    (store : Store) (slot : String) (h1 : reg slot = none)
    (h2 : reg "default" = none) :
    getRendererOrDefault type reg store slot = (none, store) := by
  unfold getRendererOrDefault
  rw [getRenderer_unbound type reg store slot h1]
  exact getRenderer_unbound type reg store "default" h2

/-- The registry with every slot unbound, violating the mandatory-default
invariant; concrete instance used by witnesses. -/
def emptyRegistry : Registry := fun _ => none

/-- C4 witness: resolving the card slot against the fully unbound registry
yields absence together with the unchanged store. -/
theorem C4_missing_default_yields_absence_witness :
    getRendererOrDefault "ImageRenderer" emptyRegistry plainStore "card"
      = (none, plainStore) :=
  C4_missing_default_yields_absence "ImageRenderer" emptyRegistry plainStore
    "card" rfl rfl

/-- C2 (amended): when the requested slot is bound to a renderer whose
displayName is falsy (absent or empty), resolution assigns it the label
consisting of the registry type string followed by, in parentheses, the
renderer's own function name when that is present and non-empty and the
requested slot name otherwise; a renderer whose displayName is already a
non-empty string is left unchanged, as is the rest of the store. -/
theorem C2_label_assignment (type : String) (reg : Registry) (store : Store)
    (slot : String) (rid : RendererId) (h : reg slot = some rid) :
    (strTruthy (store rid).displayName = false →
      ((getRenderer type reg store slot).2 rid).displayName =
        some (type ++ "(" ++
          (if strTruthy (store rid).name then (store rid).name.getD slot
            else slot) ++ ")")) ∧
    (strTruthy (store rid).displayName = true →
      (getRenderer type reg store slot).2 = store) := by
  constructor
  · intro hf
    unfold getRenderer
    rw [h]
    simp [hf, mkLabel]
  · intro ht
    unfold getRenderer
    rw [h]
    simp [ht]

/-- C2 witness: resolving the card slot of the example registry labels
renderer 1, whose function name and displayName are both absent, with
the slot-derived label. -/
theorem C2_label_assignment_witness :
    strTruthy (plainStore 1).displayName = false ∧
    ((getRenderer "ImageRenderer" exampleRegistry plainStore "card").2
        1).displayName = some "ImageRenderer(card)" := by
  refine ⟨rfl, ?_⟩
  have h := (C2_label_assignment "ImageRenderer" exampleRegistry plainStore
    "card" 1 (by decide)).1 rfl
  rw [h]
  decide

/-- The store in which every renderer has function name f and a present but
empty displayName; counterexample input for C2. -/
def emptyLabelStore : Store := fun _ => ⟨some "f", some ""⟩

/-- C2 counterexample: a renderer that already has a displayName, namely
the empty string, is not left unchanged by resolution: the source tests
truthiness rather than presence, so the present empty label is
overwritten with the synthesized one. -/
theorem C2_label_assignment_counterexample :
    (emptyLabelStore 1).displayName.isSome = true ∧
    ((getRenderer "ImageRenderer" exampleRegistry emptyLabelStore "card").2
        1).displayName ≠ (emptyLabelStore 1).displayName ∧
    ((getRenderer "ImageRenderer" exampleRegistry emptyLabelStore "card").2
        1).displayName = some "ImageRenderer(f)" := by
  refine ⟨rfl, ?_, ?_⟩ <;> decide

/-- Frame property of a single lookup: no field other than the displayName
of the renderer bound to the requested slot is modified, and that one
only when it was falsy. -/
theorem getRenderer_frame (type : String) (reg : Registry) (store : Store)
    (name : String) (i : RendererId) :
    ((getRenderer type reg store name).2 i).name = (store i).name ∧
    ((getRenderer type reg store name).2 i ≠ store i →
      strTruthy (store i).displayName = false ∧ reg name = some i) := by
  unfold getRenderer
  cases h : reg name with
  | none => simp
  | some rid =>
    by_cases hd : strTruthy (store rid).displayName
    · simp [hd]
    · simp only [Bool.not_eq_true] at hd
      simp only [hd, Bool.false_eq_true, if_false]
      by_cases hi : i = rid
      · subst hi
        constructor
        · simp
        · intro _
          exact ⟨hd, rfl⟩
      · simp [hi]

/-- C9 (amended): resolution leaves the function name of every renderer
unchanged, and any renderer it changes at all is one bound to the
requested slot or to the default slot whose displayName was previously
falsy, that is absent or empty; nothing else in the store is modified,
and the registry itself, being a plain argument, is never written. -/
theorem C9_resolution_frame (type : String) (reg : Registry) (store : Store)
    (slot : String) (i : RendererId) :
    ((getRendererOrDefault type reg store slot).2 i).name = (store i).name ∧
    ((getRendererOrDefault type reg store slot).2 i ≠ store i →
      strTruthy (store i).displayName = false ∧
      (reg slot = some i ∨ reg "default" = some i)) := by
  unfold getRendererOrDefault
  cases hp : getRenderer type reg store slot with
  | mk r1 s1 =>
    cases r1 with
    | some rid =>
        have hf := getRenderer_frame type reg store slot i
        rw [hp] at hf
        simp only at hf ⊢
        exact ⟨hf.1, fun hne => ⟨(hf.2 hne).1, Or.inl (hf.2 hne).2⟩⟩
    | none =>
        have hfst := getRenderer_fst type reg store slot
        rw [hp] at hfst
        simp only at hfst
        have hs1 : s1 = store := by
          have hu := getRenderer_unbound type reg store slot hfst.symm
          rw [hp] at hu
          exact congrArg Prod.snd hu
        subst hs1
        have hf := getRenderer_frame type reg s1 "default" i
        simp only
        exact ⟨hf.1, fun hne => ⟨(hf.2 hne).1, Or.inr (hf.2 hne).2⟩⟩

/-- C9 witness: resolving the absent standalone slot of the example
registry against the all-blank store changes the default renderer 0, and
the theorem then certifies that its displayName was previously falsy and
that it is the default binding. -/
theorem C9_resolution_frame_witness :
    strTruthy (plainStore 0).displayName = false ∧
    (exampleRegistry "standalone" = some 0 ∨
      exampleRegistry "default" = some 0) := by
  have h := (C9_resolution_frame "ImageRenderer" exampleRegistry plainStore
    "standalone" 0).2 (by decide)
  exact h

/-- The store in which every renderer has no function name and a present
but empty displayName; counterexample input for C9. -/
def emptyLabelStoreB : Store := fun _ => ⟨none, some ""⟩

/-- C9 counterexample: resolution writes the displayName of the default
renderer even though that field was previously present, namely the empty
string, because the source tests truthiness rather than presence. -/
theorem C9_resolution_frame_counterexample :
    (emptyLabelStoreB 0).displayName.isSome = true ∧
    (getRendererOrDefault "ImageRenderer" exampleRegistry emptyLabelStoreB
        "standalone").2 0 ≠ emptyLabelStoreB 0 ∧
    ((getRendererOrDefault "ImageRenderer" exampleRegistry emptyLabelStoreB
        "standalone").2 0).displayName = some "ImageRenderer(default)" := by
  refine ⟨rfl, ?_, ?_⟩ <;> decide

/-- Identities of the named style fragments appearing in the UrlButton and
Card sources. Host-supplied css fragments (theme overrides, caller custom
styles) are opaque `custom` values distinguished by a number. -/
inductive StyleAtom where
  | baseButton
  | defaultAnchor
  | quickReplyStyle
  | cardButtonBase
  | cardImageBase
  | custom (id : Nat)
deriving Repr, DecidableEq

/-- An emotion `Interpolation` value as the sources use it: a single style
fragment, the `undefined` value (which emotion ignores), or a nested
array of interpolations. -/
inductive Interp where
  | undef
  | style (s : StyleAtom)
  | arr (l : List Interp)

/-- The theme override fields read by the Card and UrlButton sources; each
is a host-supplied css fragment or absent. Host css objects are truthy,
so the `||` fallbacks on them coincide with `Option.orElse`. -/
structure ThemeOverrides where
  buttonsUrlButton : Option Interp
  buttonsPostbackButton : Option Interp
  quickReply : Option Interp
  cardCardButton : Option Interp
  cardCardImage : Option Interp

/-- The props accepted by the UrlButton component (UrlButton.tsx,
lines 6-12). -/
structure UrlButtonProps where
  customStyle : Option Interp
  imageUrl : Option String
  label : String
  target : Option String
  url : String

/-- The anchor element produced by UrlButton: its attributes and the css
list attached to it. The component never sets a tabIndex attribute. -/
structure RenderedAnchor where
  href : String
  target : String
  css : List Interp
  tabIndex : Option Int
  hasImage : Bool
  label : String

/-- Embedding of the UrlButton component (UrlButton.tsx, lines 19-42):
the anchor style is the list consisting of baseButtonStyle, then
defaultAnchorStyle, then `customStyle || [quickReplyStyle,
theme.overrides?.buttons?.urlButton || theme.overrides?.quickReply]`;
the anchor carries the url, the target defaulting to _blank, an optional
leading QuickReplyImage when imageUrl is truthy, and the label. -/
def UrlButton (theme : ThemeOverrides) (p : UrlButtonProps) :
    RenderedAnchor :=
  { href := p.url
    target := p.target.getD "_blank"
    css := [.style .baseButton, .style .defaultAnchor,
      p.customStyle.getD (.arr [.style .quickReplyStyle,
        (theme.buttonsUrlButton.orElse fun _ => theme.quickReply).getD
          .undef])]
    tabIndex := none
    hasImage := strTruthy p.imageUrl
    label := p.label }

/-- Button payload data (`Button` in model/buttons, a module outside the
provided sources). Modelled from the spec: a tagged union of URL buttons
and postback buttons, each with a label, an optional image and a
type-specific payload; the Card source discriminates the variants by the
presence of the url field. -/
inductive ButtonData where
  | url (label : String) (url : String) (imageUrl : Option String)
      (target : Option String)
  | postback (label : String) (imageUrl : Option String)
      (payload : Option String)
deriving Repr, DecidableEq

/-- The buttons prop as a JavaScript caller may supply it: absent, some
non-array value, or an array of button data. The Card source guards with
Array.isArray before rendering the list. -/
inductive ButtonsProp where
  | absent
  | notAnArray
  | arr (bs : List ButtonData)
deriving Repr, DecidableEq

/-- The props that Card's renderButton passes to the PostBackButton
component: the composed custom style, the button payload fields, and the
optional tabIndex override. -/
structure RenderedPostback where
  customStyle : List Interp
  label : String
  imageUrl : Option String
  tabIndex : Option Int

/-- One rendered list item of a card's button list: a UrlButton anchor or
a PostBackButton. -/
inductive RenderedButton where
  | urlBtn (a : RenderedAnchor)
  | postbackBtn (p : RenderedPostback)

/-- Embedding of renderButton inside Card (part_001, lines 134-160): a url
button becomes a UrlButton whose customStyle is the array
[cardButtonBaseStyle, theme.overrides?.buttons?.urlButton,
theme.overrides?.card?.cardButton]; a postback button receives the
analogous style list and, exactly when the containing card is hidden, a
tabIndex of -1 via the conditional spread. -/
def renderButton (theme : ThemeOverrides) (isHidden : Bool)
    (b : ButtonData) : RenderedButton :=
  match b with
  | .url label url imageUrl target =>
      .urlBtn (UrlButton theme
        { customStyle := some (.arr [.style .cardButtonBase,
            theme.buttonsUrlButton.getD .undef,
            theme.cardCardButton.getD .undef])
          imageUrl := imageUrl
          label := label
          target := target
          url := url })
  | .postback label imageUrl _ =>
      .postbackBtn
        { customStyle := [.style .cardButtonBase,
            theme.buttonsPostbackButton.getD .undef,
            theme.cardCardButton.getD .undef]
          label := label
          imageUrl := imageUrl
          tabIndex := if isHidden then some (-1) else none }

/-- The props accepted by the Card component (part_001, lines 97-106);
the isHidden prop defaults to false at the destructuring site, so an
absent value is the same as false. -/
structure CardProps where
  title : String
  subTitle : Option String
  imageUrl : Option String
  imageAlternative : Option String
  buttons : ButtonsProp
  roleDescription : Option String
  isHidden : Bool

/-- The rendered button list of a card: the ul carries the literal role
group together with one item per button. -/
structure ButtonGroup where
  role : String
  items : List RenderedButton

/-- The rendered output of the Card component: the outer li wrapper's
role and aria-roledescription, the article's aria-hidden flag, whether
the image and subtitle fragments are emitted, the css attached to the
card image, and the optional button list. -/
structure RenderedCard where
  outerRole : Option String
  outerRoleDescription : Option String
  containerAriaHidden : Bool
  imageEmitted : Bool
  imageCss : List Interp
  subTitleEmitted : Bool
  buttonGroup : Option ButtonGroup

/-- Embedding of the Card component (part_001, lines 108-188). hasRef
models the JavaScript test `ref == undefined`: loose equality holds for
undefined and null alike, so one flag captures whether a forwarding
reference was supplied. The wrapper carries role group and an
aria-roledescription (the roleDescription prop when truthy, Slide
otherwise) exactly when hasRef; the image is emitted when imageUrl is
truthy; the button list is emitted when buttons is an array with at
least one element. -/
def Card (theme : ThemeOverrides) (p : CardProps) (hasRef : Bool) :
    RenderedCard :=
  { outerRole := if hasRef then some "group" else none
    outerRoleDescription :=
      if hasRef then
        some (if strTruthy p.roleDescription then
          p.roleDescription.getD "Slide" else "Slide")
      else none
    containerAriaHidden := p.isHidden
    imageEmitted := strTruthy p.imageUrl
    imageCss := [.style .cardImageBase, theme.cardCardImage.getD .undef]
    subTitleEmitted := strTruthy p.subTitle
    buttonGroup :=
      match p.buttons with
      | .arr bs =>
          if 0 < bs.length then
            some ⟨"group", bs.map (renderButton theme p.isHidden)⟩
          else none
      | _ => none }

/-- C5: the card's button list is emitted exactly when the buttons prop is
an array holding at least one button; an absent, non-array or empty
collection renders no button-list group element. -/
theorem C5_button_group_iff_nonempty (theme : ThemeOverrides)
    (p : CardProps) (hasRef : Bool) :
    (Card theme p hasRef).buttonGroup.isSome = true ↔
      ∃ bs, p.buttons = ButtonsProp.arr bs ∧ 0 < bs.length := by
  simp only [Card]
  cases hb : p.buttons with
  | absent => simp
  | notAnArray => simp
  | arr bs => by_cases h : 0 < bs.length <;> simp [h]

/-- Every item of a card's rendered button list is the rendering of one of
the card's buttons under the card's hidden flag. -/
theorem card_items_are_rendered (theme : ThemeOverrides) (p : CardProps)
    (hasRef : Bool) (g : ButtonGroup)
    (hg : (Card theme p hasRef).buttonGroup = some g)
    (rb : RenderedButton) (hm : rb ∈ g.items) :
    ∃ b : ButtonData, renderButton theme p.isHidden b = rb := by
  simp only [Card] at hg
  cases hb : p.buttons with
  | absent => rw [hb] at hg; simp at hg
  | notAnArray => rw [hb] at hg; simp at hg
  | arr bs =>
      rw [hb] at hg
      by_cases h : 0 < bs.length
      · simp only [h, if_pos, Option.some.injEq] at hg
        have hitems : g.items = bs.map (renderButton theme p.isHidden) := by
          rw [← hg]
        rw [hitems] at hm
        obtain ⟨b, _, hbeq⟩ := List.mem_map.1 hm
        exact ⟨b, hbeq⟩
      · simp [h] at hg

/-- A postback button rendered by renderButton carries tabIndex -1 exactly
when the containing card is hidden. -/
theorem renderButton_postback_tabIndex (theme : ThemeOverrides)
    (isHidden : Bool) (b : ButtonData) (pb : RenderedPostback)
    (h : renderButton theme isHidden b = RenderedButton.postbackBtn pb) :
    pb.tabIndex = if isHidden then some (-1) else none := by
  cases b with
  | url _ _ _ _ => simp [renderButton] at h
  | postback _ _ _ =>
      simp only [renderButton, RenderedButton.postbackBtn.injEq] at h
      rw [← h]

/-- A url button rendered by renderButton never carries a tabIndex,
whatever the hidden flag. -/
theorem renderButton_url_tabIndex (theme : ThemeOverrides)
    (isHidden : Bool) (b : ButtonData) (a : RenderedAnchor)
    (h : renderButton theme isHidden b = RenderedButton.urlBtn a) :
    a.tabIndex = none := by
  cases b with
  | postback _ _ _ => simp [renderButton] at h
  | url _ _ _ _ =>
      simp only [renderButton, RenderedButton.urlBtn.injEq] at h
      rw [← h]
      rfl

/-- C6: every postback button rendered by a hidden card carries tabIndex
-1, excluding it from sequential keyboard navigation, while an identical
card that is not hidden applies no tabIndex override to its postback
buttons, which therefore remain focusable. -/
theorem C6_postback_tabindex (theme : ThemeOverrides) (p : CardProps)
    (hasRef : Bool) (g : ButtonGroup)
    (hg : (Card theme p hasRef).buttonGroup = some g)
    (rb : RenderedButton) (hm : rb ∈ g.items)
    (pb : RenderedPostback) (hpb : rb = RenderedButton.postbackBtn pb) :
    pb.tabIndex = if p.isHidden then some (-1) else none := by
  obtain ⟨b, hb⟩ := card_items_are_rendered theme p hasRef g hg rb hm
  rw [hpb] at hb
  exact renderButton_postback_tabIndex theme p.isHidden b pb hb

/-- The theme with every override absent; concrete instance for
witnesses. -/
def plainTheme : ThemeOverrides := ⟨none, none, none, none, none⟩

/-- A hidden card holding exactly one postback button; witness input. -/
def postbackOnlyCard : CardProps :=
  { title := "t", subTitle := none, imageUrl := none,
    imageAlternative := none,
    buttons := .arr [.postback "ok" none (some "action")],
    roleDescription := none, isHidden := true }

/-- The same card, not hidden. -/
def postbackCardShown : CardProps := { postbackOnlyCard with isHidden := false }

/-- The postback props produced by the hidden witness card. -/
def pbItemHidden : RenderedPostback :=
  { customStyle := [.style .cardButtonBase, .undef, .undef],
    label := "ok", imageUrl := none, tabIndex := some (-1) }

/-- The postback props produced by the shown witness card. -/
def pbItemShown : RenderedPostback := { pbItemHidden with tabIndex := none }

/-- C6 witness: the one postback button of the hidden card carries
tabIndex -1, and the same button of the identical shown card carries no
tabIndex. -/
theorem C6_postback_tabindex_witness :
    pbItemHidden.tabIndex = some (-1) ∧ pbItemShown.tabIndex = none := by
  constructor
  · exact C6_postback_tabindex plainTheme postbackOnlyCard false
      ⟨"group", [.postbackBtn pbItemHidden]⟩ rfl
      (.postbackBtn pbItemHidden) (by simp) pbItemHidden rfl
  · exact C6_postback_tabindex plainTheme postbackCardShown false
      ⟨"group", [.postbackBtn pbItemShown]⟩ rfl
      (.postbackBtn pbItemShown) (by simp) pbItemShown rfl

/-- C7: the UrlButton anchor style list applies, in this fixed order, the
base button style, then the component's default anchor style, then the
caller-supplied custom style when provided and the theme-derived
quick-reply fallback otherwise; in particular a supplied custom style is
the last entry of the composed list. -/
theorem C7_url_button_style_order (theme : ThemeOverrides)
    (p : UrlButtonProps) :
    (UrlButton theme p).css =
      [Interp.style .baseButton, Interp.style .defaultAnchor,
        p.customStyle.getD (.arr [.style .quickReplyStyle,
          (theme.buttonsUrlButton.orElse fun _ => theme.quickReply).getD
            .undef])] ∧
    (∀ c, p.customStyle = some c →
      ((UrlButton theme p).css).getLast? = some c) := by
  constructor
  · rfl
  · intro c hc
    simp [UrlButton, hc]

/-- A url button carrying an opaque caller-supplied custom style and no
other overrides; witness input. -/
def customUrlProps : UrlButtonProps :=
  { customStyle := some (.style (.custom 7)), imageUrl := none,
    label := "go", target := none, url := "https://example.com" }

/-- C7 witness: with a custom style and no theme override, the composed
style list of the url button ends with exactly the custom style. -/
theorem C7_url_button_style_order_witness :
    (UrlButton plainTheme customUrlProps).css.getLast? =
      some (.style (.custom 7)) :=
  (C7_url_button_style_order plainTheme customUrlProps).2 _ rfl

/-- C8 (amended): the outer wrapper carries role group and an
aria-roledescription exactly when a forwarding reference is supplied;
the description is the supplied roleDescription when that is present and
non-empty, and Slide otherwise; with no reference both attributes are
omitted. -/
theorem C8_wrapper_attrs (theme : ThemeOverrides) (p : CardProps) :
    ((Card theme p true).outerRole = some "group") ∧
    (∀ s, p.roleDescription = some s → s.isEmpty = false →
        (Card theme p true).outerRoleDescription = some s) ∧
    (strTruthy p.roleDescription = false →
        (Card theme p true).outerRoleDescription = some "Slide") ∧
    ((Card theme p false).outerRole = none ∧
      (Card theme p false).outerRoleDescription = none) := by
  refine ⟨rfl, ?_, ?_, rfl, rfl⟩
  · intro s hs hne
    simp [Card, hs, strTruthy, hne]
  · intro hf
    simp [Card, hf]

/-- A card with a reference and a non-empty roleDescription; witness
input. -/
def describedCard : CardProps :=
  { title := "t", subTitle := none, imageUrl := none,
    imageAlternative := none, buttons := .absent,
    roleDescription := some "Banner", isHidden := false }

/-- C8 witness: with a forwarding reference, the wrapper of the described
card carries the supplied non-empty roleDescription. -/
theorem C8_wrapper_attrs_witness :
    (Card plainTheme describedCard true).outerRoleDescription =
      some "Banner" :=
  (C8_wrapper_attrs plainTheme describedCard).2.1 "Banner" rfl rfl

/-- A card with a reference whose supplied roleDescription is the empty
string; counterexample input for C8. -/
def emptyRoleDescCard : CardProps :=
  { title := "t", subTitle := none, imageUrl := none,
    imageAlternative := none, buttons := .absent,
    roleDescription := some "", isHidden := false }

/-- C8 counterexample: with a forwarding reference and a supplied
roleDescription equal to the empty string, the wrapper's
aria-roledescription is Slide rather than the supplied value, because
the source tests truthiness, not presence. -/
theorem C8_wrapper_attrs_counterexample :
    emptyRoleDescCard.roleDescription.isSome = true ∧
    (Card plainTheme emptyRoleDescCard true).outerRoleDescription =
      some "Slide" ∧
    (Card plainTheme emptyRoleDescCard true).outerRoleDescription ≠
      emptyRoleDescCard.roleDescription := by
  refine ⟨rfl, rfl, ?_⟩
  decide

/-- C10: the hidden-card keyboard exclusion applies only to postback
buttons: a url button rendered by a hidden card receives no tabIndex
override, hence stays in sequential keyboard navigation, even though the
card container is marked aria-hidden. -/
theorem C10_hidden_url_button_focusable (theme : ThemeOverrides)
    (p : CardProps) (hasRef : Bool) (hhid : p.isHidden = true)
    (g : ButtonGroup) (hg : (Card theme p hasRef).buttonGroup = some g)
    (rb : RenderedButton) (hm : rb ∈ g.items)
    (a : RenderedAnchor) (ha : rb = RenderedButton.urlBtn a) :
    (Card theme p hasRef).containerAriaHidden = true ∧ a.tabIndex = none := by
  refine ⟨by simp [Card, hhid], ?_⟩
  obtain ⟨b, hb⟩ := card_items_are_rendered theme p hasRef g hg rb hm
  rw [ha] at hb
  exact renderButton_url_tabIndex theme p.isHidden b a hb

/-- A hidden card holding exactly one url button; witness input. -/
def urlOnlyCard : CardProps :=
  { title := "t", subTitle := none, imageUrl := none,
    imageAlternative := none,
    buttons := .arr [.url "go" "https://example.com" none none],
    roleDescription := none, isHidden := true }

/-- The anchor produced by the hidden witness card's url button. -/
def urlItem : RenderedAnchor :=
  { href := "https://example.com", target := "_blank",
    css := [.style .baseButton, .style .defaultAnchor,
      .arr [.style .cardButtonBase, .undef, .undef]],
    tabIndex := none, hasImage := false, label := "go" }

/-- C10 witness: the hidden card's container is aria-hidden, yet its url
button carries no tabIndex. -/
theorem C10_hidden_url_button_focusable_witness :
    (Card plainTheme urlOnlyCard false).containerAriaHidden = true ∧
    urlItem.tabIndex = none :=
  C10_hidden_url_button_focusable plainTheme urlOnlyCard false rfl
    ⟨"group", [.urlBtn urlItem]⟩ rfl (.urlBtn urlItem) (by simp)
    urlItem rfl
